import Mathlib

/-!
Shallow embedding of the clinical-trial ingestion pipeline
(`src/ingestion/api/client.py`, `src/ingestion/processing/field_mapper.py`,
`src/ingestion/orchestrator.py`, `src/models/core/study.py`,
`src/models/core/enums.py`).

Python values flowing through the pipeline are nested JSON; we model them
with the `Json` inductive. Python `dict.get` on a non-dict value raises
`AttributeError`; fallible code is therefore embedded in `Except String`.
Python `int(...)` failures (`ValueError`/`TypeError`) and `datetime(...)`
range validation are modelled explicitly. Machine integers do not occur
(Python ints are unbounded), so `Int`/`Nat` are used directly; the float
`retry_delay` only ever participates in exact products with small naturals
and is modelled as `ℚ`.
-/

/-- A Python/JSON value. Numbers in the fields this pipeline reads are
integers, so `num` carries `Int`. -/
inductive Json where
  | null : Json
  | bool : Bool → Json
  | num : Int → Json
  | str : String → Json
  | arr : List Json → Json
  | obj : List (String × Json) → Json
deriving Repr

mutual

/-- Structural equality of JSON values (Python `==` on plain data). -/
def jsonEq : Json → Json → Bool
  | .null, .null => true
  | .bool a, .bool b => a == b
  | .num a, .num b => a == b
  | .str a, .str b => a == b
  | .arr as, .arr bs => jsonEqList as bs
  | .obj as, .obj bs => jsonEqPairs as bs
  | _, _ => false

def jsonEqList : List Json → List Json → Bool
  | [], [] => true
  | a :: as, b :: bs => jsonEq a b && jsonEqList as bs
  | _, _ => false

def jsonEqPairs : List (String × Json) → List (String × Json) → Bool
  | [], [] => true
  | (k, a) :: as, (k2, b) :: bs => k == k2 && jsonEq a b && jsonEqPairs as bs
  | _, _ => false

end

/-- A Python dict with string keys (the statically-typed `Dict[str, Any]`
values such as a whole API response). -/
def PyDict := List (String × Json)

/-- First-match association lookup (Python dict lookup; parsed JSON has
unique keys). -/
def lookupKey : List (String × Json) → String → Option Json
  | [], _ => none
  | (k, v) :: rest, key => if k == key then some v else lookupKey rest key

/-- Python truthiness of a JSON value. -/
def pyTruthy : Json → Bool
  | .null => false
  | .bool b => b
  | .num n => !(n == 0)
  | .str s => !(s == "")
  | .arr l => !l.isEmpty
  | .obj l => !l.isEmpty

/-- `d.get(key, dflt)` on a value statically known to be a dict. -/
def dictGetD (d : List (String × Json)) (key : String) (dflt : Json) : Json :=
  (lookupKey d key).getD dflt

/-- `x.get(key, dflt)` on an arbitrary value: raises `AttributeError` when
`x` is not a dict. -/
def pyGetD (x : Json) (key : String) (dflt : Json) : Except String Json :=
  match x with
  | .obj l => .ok (dictGetD l key dflt)
  | _ => .error "AttributeError: get"

/-- `x.get(key)` (default `None`). -/
def pyGet (x : Json) (key : String) : Except String Json :=
  pyGetD x key Json.null

/-- ASCII uppercasing, the behaviour of Python `str.upper` on the
identifiers this pipeline compares. -/
def pyStrUpper (s : String) : String :=
  String.mk (s.data.map Char.toUpper)

/-- ASCII lowercasing (Python `str.lower`). -/
def pyStrLower (s : String) : String :=
  String.mk (s.data.map Char.toLower)

/-- `x.upper()` on an arbitrary value: raises `AttributeError` when `x` is
not a string. -/
def pyUpperJ (x : Json) : Except String String :=
  match x with
  | .str s => .ok (pyStrUpper s)
  | _ => .error "AttributeError: upper"

/-- Does `hay` start with `needle`? -/
def startsWithL : List Char → List Char → Bool
  | _, [] => true
  | [], _ :: _ => false
  | a :: as, b :: bs => (a == b) && startsWithL as bs

/-- Substring containment on character lists (Python `needle in hay`). -/
def containsSubL : List Char → List Char → Bool
  | [], needle => needle.isEmpty
  | h :: t, needle => startsWithL (h :: t) needle || containsSubL t needle

/-- Python `needle in hay` on strings. -/
def strContainsSub (hay needle : String) : Bool :=
  containsSubL hay.data needle.data

/-- Decimal digits to a natural number. -/
def digitsToNat (l : List Char) : Nat :=
  l.foldl (fun a c => a * 10 + (c.toNat - 48)) 0

/-- Python `int(s)` on a string: optional surrounding whitespace, optional
sign, then a nonempty digit run; anything else raises `ValueError`. -/
def pyIntOfString (s : String) : Option Int :=
  let t := ((s.data.dropWhile Char.isWhitespace).reverse.dropWhile Char.isWhitespace).reverse
  match t with
  | '-' :: rest =>
      if rest ≠ [] ∧ rest.all Char.isDigit then some (-(digitsToNat rest : Int)) else none
  | '+' :: rest =>
      if rest ≠ [] ∧ rest.all Char.isDigit then some (digitsToNat rest : Int) else none
  | l => if l ≠ [] ∧ l.all Char.isDigit then some (digitsToNat l : Int) else none

/-- Python `int(x)` on a JSON value; `.error` stands for the
`ValueError`/`TypeError` it raises on unconvertible input. -/
def pyInt : Json → Except String Int
  | .num n => .ok n
  | .bool b => .ok (if b then 1 else 0)
  | .str s =>
      match pyIntOfString s with
      | some n => .ok n
      | none => .error "ValueError: int"
  | _ => .error "TypeError: int"

/-- The apostrophe character used by Python repr of strings. -/
def pyQuote : String := String.singleton (Char.ofNat 39)

/-- Python `repr` of a JSON value (used by str() on containers); escaping
is not modelled, no reason string the pipeline matches on ever needs it. -/
def pyRepr : Json → String
  | .null => "None"
  | .bool b => if b then "True" else "False"
  | .num n => toString n
  | .str s => pyQuote ++ s ++ pyQuote
  | .arr l => "[" ++ ", ".intercalate (l.attach.map (fun x => pyRepr x.1)) ++ "]"
  | .obj l =>
      "\x7b" ++ ", ".intercalate
        (l.attach.map (fun x => pyQuote ++ x.1.1 ++ pyQuote ++ ": " ++ pyRepr x.1.2)) ++ "\x7d"
decreasing_by
  · have := List.sizeOf_lt_of_mem x.2
    simp only [Json.arr.sizeOf_spec]
    omega
  · have := List.sizeOf_lt_of_mem x.2
    have h2 : sizeOf x.1.2 < sizeOf x.1 := by
      cases x.1 with
      | mk a b => simp
    simp only [Json.obj.sizeOf_spec]
    omega

/-- Python `str(x)` (f-string interpolation of a JSON value). -/
def pyStrOf : Json → String
  | .str s => s
  | x => pyRepr x

/-- Python `x == s` for a string literal `s`: only equal-valued strings
compare equal among JSON values. -/
def jsonEqStr (x : Json) (s : String) : Bool :=
  match x with
  | .str t => t == s
  | _ => false

/-- Python `x in l` for a list of string literals. -/
def jsonInStrList (x : Json) (l : List String) : Bool :=
  match x with
  | .str t => l.contains t
  | _ => false

/-- Is the value a dict? -/
def isObjJ : Json → Bool
  | .obj _ => true
  | _ => false

/-- Is the value a string? -/
def isStrJ : Json → Bool
  | .str _ => true
  | _ => false

/-- `StudyStatus` enum from `src/models/core/enums.py`; each member's
`.value` is the string given by `StudyStatus.value` below. -/
inductive StudyStatus where
  | COMPLETED
  | TERMINATED
  | SUSPENDED
  | ACTIVE_NOT_RECRUITING
  | RECRUITING
  | NOT_YET_RECRUITING
  | ENROLLING_BY_INVITATION
  | AVAILABLE
  | NO_LONGER_AVAILABLE
  | TEMPORARILY_NOT_AVAILABLE
  | APPROVED_FOR_MARKETING
  | WITHDRAWN
  | UNKNOWN
deriving DecidableEq, Repr

/-- The `.value` string of each enum member (`src/models/core/enums.py`). -/
def StudyStatus.value : StudyStatus → String
  | .COMPLETED => "COMPLETED"
  | .TERMINATED => "TERMINATED"
  | .SUSPENDED => "SUSPENDED"
  | .ACTIVE_NOT_RECRUITING => "ACTIVE_NOT_RECRUITING"
  | .RECRUITING => "RECRUITING"
  | .NOT_YET_RECRUITING => "NOT_YET_RECRUITING"
  | .ENROLLING_BY_INVITATION => "ENROLLING_BY_INVITATION"
  | .AVAILABLE => "AVAILABLE"
  | .NO_LONGER_AVAILABLE => "NO_LONGER_AVAILABLE"
  | .TEMPORARILY_NOT_AVAILABLE => "TEMPORARILY_NOT_AVAILABLE"
  | .APPROVED_FOR_MARKETING => "APPROVED_FOR_MARKETING"
  | .WITHDRAWN => "WITHDRAWN"
  | .UNKNOWN => "UNKNOWN"

/-- Value-to-member table of the Python enum (used by `StudyStatus(s)`),
in declaration order. -/
def statusValueTable : List (String × StudyStatus) :=
  [("COMPLETED", .COMPLETED), ("TERMINATED", .TERMINATED), ("SUSPENDED", .SUSPENDED),
   ("ACTIVE_NOT_RECRUITING", .ACTIVE_NOT_RECRUITING), ("RECRUITING", .RECRUITING),
   ("NOT_YET_RECRUITING", .NOT_YET_RECRUITING),
   ("ENROLLING_BY_INVITATION", .ENROLLING_BY_INVITATION), ("AVAILABLE", .AVAILABLE),
   ("NO_LONGER_AVAILABLE", .NO_LONGER_AVAILABLE),
   ("TEMPORARILY_NOT_AVAILABLE", .TEMPORARILY_NOT_AVAILABLE),
   ("APPROVED_FOR_MARKETING", .APPROVED_FOR_MARKETING), ("WITHDRAWN", .WITHDRAWN),
   ("UNKNOWN", .UNKNOWN)]

/-- Python `StudyStatus(s)`: enum lookup by value, case-sensitive, raising
`ValueError` when no member has value `s`. -/
def studyStatusOfValue (s : String) : Except String StudyStatus :=
  match statusValueTable.lookup s with
  | some e => .ok e
  | none => .error "ValueError: StudyStatus"

/-- The `status_mapping` table inside
`ClinicalTrialsFieldMapper.map_study_status`
(`field_mapper.py` lines 101 to 114), in source order. -/
def status_mapping : List (String × StudyStatus) :=
  [("COMPLETED", .COMPLETED), ("TERMINATED", .TERMINATED), ("SUSPENDED", .SUSPENDED),
   ("WITHDRAWN", .WITHDRAWN), ("ACTIVE_NOT_RECRUITING", .ACTIVE_NOT_RECRUITING),
   ("RECRUITING", .RECRUITING), ("NOT_YET_RECRUITING", .NOT_YET_RECRUITING),
   ("ENROLLING_BY_INVITATION", .ENROLLING_BY_INVITATION), ("AVAILABLE", .AVAILABLE),
   ("NO_LONGER_AVAILABLE", .NO_LONGER_AVAILABLE),
   ("TEMPORARILY_NOT_AVAILABLE", .TEMPORARILY_NOT_AVAILABLE),
   ("APPROVED_FOR_MARKETING", .APPROVED_FOR_MARKETING)]

/-- `ClinicalTrialsFieldMapper.map_study_status` (`field_mapper.py` lines
96 to 116): falsy input maps to `UNKNOWN`; otherwise the input is
uppercased (`status_str.upper()`, raising on non-strings) and looked up in
`status_mapping` with an `UNKNOWN` default. -/
def map_study_status (status_str : Json) : Except String StudyStatus :=
  if !pyTruthy status_str then .ok .UNKNOWN
  else do
    let u ← pyUpperJ status_str
    .ok ((status_mapping.lookup u).getD .UNKNOWN)

/-- A concrete calendar date, result of a successful Python
`datetime(year, month, day)` (clock part unused by the mapper). -/
structure PyDate where
  year : Int
  month : Int
  day : Int
deriving DecidableEq, Repr

/-- Gregorian leap year rule used by Python `datetime`. -/
def isLeapYear (y : Int) : Bool :=
  y % 4 == 0 && (y % 100 != 0 || y % 400 == 0)

/-- Days in a month, as validated by the Python `datetime` constructor. -/
def daysInMonth (y m : Int) : Int :=
  if m == 2 then (if isLeapYear y then 29 else 28)
  else if m == 4 || m == 6 || m == 9 || m == 11 then 30
  else 31

/-- Python `datetime(y, m, d)`: `none` stands for the `ValueError` raised
on an out-of-range component. -/
def mkDatetime (y m d : Int) : Option PyDate :=
  if 1 ≤ y ∧ y ≤ 9999 ∧ 1 ≤ m ∧ m ≤ 12 ∧ 1 ≤ d ∧ d ≤ daysInMonth y m then
    some ⟨y, m, d⟩
  else none

/-- `ClinicalTrialsFieldMapper.parse_date` (`field_mapper.py` lines 118
to 133): non-dict or falsy input gives `none`; month and day default to 1;
falsy year gives `none`; `int()` failures (`ValueError`/`TypeError`) and
`datetime` range errors are caught and give `none`. -/
def parse_date (date_dict : Json) : Option PyDate :=
  match date_dict with
  | .obj l =>
      if l.isEmpty then none
      else
        let year := dictGetD l "year" Json.null
        let month := dictGetD l "month" (Json.num 1)
        let day := dictGetD l "day" (Json.num 1)
        if pyTruthy year then
          match pyInt year, pyInt month, pyInt day with
          | .ok y, .ok m, .ok d => mkDatetime y m d
          | _, _, _ => none
        else none
  | _ => none

/-- `ClinicalTrialsFieldMapper._safe_int` (`field_mapper.py` lines 366
to 373). -/
def safe_int (value : Json) : Option Int :=
  match value with
  | .null => none
  | .num n => some n
  | .bool b => some (if b then 1 else 0)
  | .str s => pyIntOfString s
  | _ => none

/-- `Intervention` dataclass (`src/models/core/study.py`); fields hold the
raw values the mapper assigns. -/
structure Intervention where
  name : Json
  type : Json
  description : Json
  arm_group_labels : Json
deriving Repr

/-- `PrimaryOutcome` dataclass (`src/models/core/study.py`). -/
structure PrimaryOutcome where
  measure : Json
  time_frame : Json
  description : Json
deriving Repr

/-- `SecondaryOutcome` dataclass (`src/models/core/study.py`). -/
structure SecondaryOutcome where
  measure : Json
  time_frame : Json
  description : Json
deriving Repr

/-- `Study` dataclass (`src/models/core/study.py` lines 11 to 100), field
defaults as in the dataclass. Fields are dynamically typed in Python and
hold whatever JSON the mapper assigns, hence `Json`; dates are the parsed
`Option PyDate` results; `created_at`/`updated_at`/`raw_data` (store
bookkeeping, never read by the pipeline) are not modelled. -/
structure Study where
  nct_id : Json
  brief_title : Json
  official_title : Json := Json.null
  brief_summary : Json := Json.null
  detailed_description : Json := Json.null
  conditions : Json := Json.arr []
  phases : Json := Json.arr []
  study_type : Json := Json.null
  primary_purpose : Json := Json.null
  overall_status : StudyStatus := StudyStatus.UNKNOWN
  why_stopped : Json := Json.null
  has_results : Json := Json.bool false
  first_posted : Option PyDate := none
  results_first_posted : Option PyDate := none
  last_update_posted : Option PyDate := none
  study_first_submitted : Option PyDate := none
  study_start_date : Option PyDate := none
  primary_completion_date : Option PyDate := none
  completion_date : Option PyDate := none
  results_first_submitted : Option PyDate := none
  lead_sponsor_name : Json := Json.str "Unknown Sponsor"
  lead_sponsor_class : Json := Json.null
  collaborators : List Json := []
  responsible_party_type : Json := Json.null
  responsible_party_investigator : Json := Json.null
  allocation : Json := Json.null
  intervention_model : Json := Json.null
  intervention_model_description : Json := Json.null
  masking : Json := Json.null
  masking_description : Json := Json.null
  enrollment_count : Option Int := none
  enrollment_type : Json := Json.null
  target_duration : Json := Json.null
  countries : List Json := []
  locations : List Json := []
  minimum_age : Json := Json.null
  maximum_age : Json := Json.null
  sex : Json := Json.null
  accepts_healthy_volunteers : Option Bool := none
  eligibility_criteria : Json := Json.null
  organization_study_id : Json := Json.null
  secondary_ids : List Json := []
  oversight_has_dmc : Json := Json.null
  is_fda_regulated_drug : Json := Json.null
  is_fda_regulated_device : Json := Json.null
  interventions : List Intervention := []
  primary_outcomes : List PrimaryOutcome := []
  secondary_outcomes : List SecondaryOutcome := []
deriving Repr

/-- `Study.__post_init__` (`study.py` lines 90 to 95): a string
`overall_status` is coerced through the enum constructor, `ValueError`
falling back to `UNKNOWN`; a non-string (an enum member) is left as is. -/
def study_post_init : Sum String StudyStatus → StudyStatus
  | .inl s =>
      match studyStatusOfValue s with
      | .ok e => e
      | .error _ => .UNKNOWN
  | .inr e => e

/-- Constructing a `Study` with a dynamically-typed `overall_status`
argument (string or enum member), as the dataclass `__init__` followed by
`__post_init__` does; all other optional fields keep their defaults. -/
def mkStudy (nct : Json) (title : Json) (status : Sum String StudyStatus) : Study :=
  { nct_id := nct, brief_title := title, overall_status := study_post_init status }

/-- `RawStudyData` container (`field_mapper.py` lines 14 to 22). -/
structure RawStudyData where
  nct_id : Json
  protocol_section : Json
  results_section : Json
  derived_section : Json
  has_results : Json
deriving Repr

/-- `ClinicalTrialsFieldMapper.extract_raw_study_data` (`field_mapper.py`
lines 79 to 94): the only fatal mapping condition is a missing/falsy
`nctId`; the raised `ValueError` carries the documented message. -/
def extract_raw_study_data (api_response : PyDict) : Except String RawStudyData := do
  let protocol_section := dictGetD api_response "protocolSection" (Json.obj [])
  let identification ← pyGetD protocol_section "identificationModule" (Json.obj [])
  let nct_id ← pyGet identification "nctId"
  if !pyTruthy nct_id then .error "Study missing required NCT ID"
  else
    .ok { nct_id := nct_id
          protocol_section := protocol_section
          results_section := dictGetD api_response "resultsSection" Json.null
          derived_section := dictGetD api_response "derivedSection" Json.null
          has_results := dictGetD api_response "hasResults" (Json.bool false) }

/-- Iterating a JSON value and calling `.get` on each element, the Python
`for x in data: x.get(...)` pattern: a list of dicts iterates those dicts;
empty iterables iterate zero times; iterating a nonempty string or dict
yields non-dict elements whose `.get` raises; non-iterables raise
`TypeError` at the loop header. -/
def pyIterDicts : Json → Except String (List (List (String × Json)))
  | .arr l =>
      l.mapM (fun e =>
        match e with
        | .obj d => .ok d
        | _ => .error "AttributeError: get")
  | .str s => if s == "" then .ok [] else .error "AttributeError: get"
  | .obj l => if l.isEmpty then .ok [] else .error "AttributeError: get"
  | _ => .error "TypeError: not iterable"

/-- One intervention entry (`field_mapper.py` lines 141 to 148), with the
index-dependent default name. -/
def buildIntervention (i : Nat) (d : List (String × Json)) : Intervention :=
  { name := dictGetD d "name" (Json.str ("Intervention " ++ toString (i + 1)))
    type := dictGetD d "type" (Json.str "OTHER")
    description := dictGetD d "description" (Json.str "")
    arm_group_labels := dictGetD d "armGroupLabels" (Json.arr []) }

/-- `ClinicalTrialsFieldMapper.extract_interventions` (`field_mapper.py`
lines 135 to 150). -/
def extract_interventions (protocol_section : Json) : Except String (List Intervention) := do
  let arms_module ← pyGetD protocol_section "armsInterventionsModule" (Json.obj [])
  let interventions_data ← pyGetD arms_module "interventions" (Json.arr [])
  let ds ← pyIterDicts interventions_data
  .ok (ds.mapIdx buildIntervention)

/-- One primary outcome entry (`field_mapper.py` lines 158 to 164). -/
def buildPrimaryOutcome (i : Nat) (d : List (String × Json)) : PrimaryOutcome :=
  { measure := dictGetD d "measure" (Json.str ("Primary Outcome " ++ toString (i + 1)))
    time_frame := dictGetD d "timeFrame" (Json.str "Not specified")
    description := dictGetD d "description" (Json.str "") }

/-- `ClinicalTrialsFieldMapper.extract_primary_outcomes` (`field_mapper.py`
lines 152 to 166). -/
def extract_primary_outcomes (protocol_section : Json) : Except String (List PrimaryOutcome) := do
  let outcomes_module ← pyGetD protocol_section "outcomesModule" (Json.obj [])
  let data ← pyGetD outcomes_module "primaryOutcomes" (Json.arr [])
  let ds ← pyIterDicts data
  .ok (ds.mapIdx buildPrimaryOutcome)

/-- One secondary outcome entry (`field_mapper.py` lines 174 to 180). -/
def buildSecondaryOutcome (i : Nat) (d : List (String × Json)) : SecondaryOutcome :=
  { measure := dictGetD d "measure" (Json.str ("Secondary Outcome " ++ toString (i + 1)))
    time_frame := dictGetD d "timeFrame" (Json.str "Not specified")
    description := dictGetD d "description" (Json.str "") }

/-- `ClinicalTrialsFieldMapper.extract_secondary_outcomes`
(`field_mapper.py` lines 168 to 182). -/
def extract_secondary_outcomes (protocol_section : Json) : Except String (List SecondaryOutcome) := do
  let outcomes_module ← pyGetD protocol_section "outcomesModule" (Json.obj [])
  let data ← pyGetD outcomes_module "secondaryOutcomes" (Json.arr [])
  let ds ← pyIterDicts data
  .ok (ds.mapIdx buildSecondaryOutcome)

/-- The `x.get(key, dflt) if x else orElse` guard pattern used throughout
`map_to_study_object`. -/
def pyGetDIf (x : Json) (key : String) (dflt orElse : Json) : Except String Json :=
  if pyTruthy x then pyGetD x key dflt else .ok orElse

/-- The comprehension
`[d.get(key, blank) for d in items if d.get(key)] if items else []`
(`field_mapper.py` lines 198 and 227). -/
def extractTruthyFields (items : Json) (key : String) : Except String (List Json) :=
  if !pyTruthy items then .ok []
  else do
    let ds ← pyIterDicts items
    .ok (ds.filterMap (fun d =>
      let v := dictGetD d key Json.null
      if pyTruthy v then some v else none))

/-- Insertion-ordered set accumulation; Python uses a hash `set` whose
iteration order is unspecified, so order of the resulting `countries` list
carries no meaning. -/
def addUnique (l : List Json) (x : Json) : List Json :=
  if l.any (fun y => jsonEq y x) then l else l ++ [x]

/-- The locations loop (`field_mapper.py` lines 277 to 288): accumulates
the distinct `country` values and a formatted `city, state` list. -/
def processLocations : List (List (String × Json)) → List Json × List Json
  | [] => ([], [])
  | d :: rest =>
      let (cs, ls) := processLocations rest
      let country := dictGetD d "country" Json.null
      let city := dictGetD d "city" (Json.str "")
      let state := dictGetD d "state" (Json.str "")
      let entry : List Json :=
        if pyTruthy city && pyTruthy state then
          [Json.str (pyStrOf city ++ ", " ++ pyStrOf state)]
        else if pyTruthy city then [city] else []
      (if pyTruthy country then addUnique cs country else cs, entry ++ ls)

/-- `ClinicalTrialsFieldMapper.map_to_study_object` (`field_mapper.py`
lines 184 to 364), the raw-to-domain projection. Every `.get` on a value
that might not be a dict goes through `pyGetD`/`pyGetDIf` and propagates
the `AttributeError` the Python code would raise (caught by the caller in
`process_single_study`, never by the mapper itself). -/
def map_to_study_object (raw_data : RawStudyData) : Except String Study := do
  let protocol := raw_data.protocol_section
  let identification ← pyGetD protocol "identificationModule" (Json.obj [])
  let brief_title ← pyGetD identification "briefTitle" (Json.str "")
  let official_title ← pyGetD identification "officialTitle" (Json.str "")
  let org_study_id_info ← pyGetD identification "orgStudyIdInfo" (Json.obj [])
  let organization_study_id ← pyGetDIf org_study_id_info "id" (Json.str "") (Json.str "")
  let secondary_id_infos ← pyGetD identification "secondaryIdInfos" (Json.arr [])
  let secondary_ids ← extractTruthyFields secondary_id_infos "id"
  let description_module ← pyGetD protocol "descriptionModule" (Json.obj [])
  let brief_summary ← pyGetD description_module "briefSummary" (Json.str "")
  let detailed_description ← pyGetD description_module "detailedDescription" (Json.str "")
  let status_module ← pyGetD protocol "statusModule" (Json.obj [])
  let raw_status ← pyGet status_module "overallStatus"
  let overall_status ← map_study_status raw_status
  let why_stopped ← pyGetD status_module "whyStopped" (Json.str "")
  let study_first_submitted := parse_date (← pyGet status_module "studyFirstSubmitDate")
  let first_posted := parse_date (← pyGet status_module "studyFirstPostDate")
  let results_first_submitted := parse_date (← pyGet status_module "resultsFirstSubmitDate")
  let results_first_posted := parse_date (← pyGet status_module "resultsFirstPostDate")
  let last_update_posted := parse_date (← pyGet status_module "lastUpdatePostDate")
  let study_start_date := parse_date (← pyGet status_module "studyStartDate")
  let primary_completion_date := parse_date (← pyGet status_module "primaryCompletionDate")
  let completion_date := parse_date (← pyGet status_module "completionDate")
  let sponsor_module ← pyGetD protocol "sponsorCollaboratorsModule" (Json.obj [])
  let lead_sponsor ← pyGetD sponsor_module "leadSponsor" (Json.obj [])
  let lead_sponsor_name ←
    pyGetDIf lead_sponsor "name" (Json.str "Unknown Sponsor") (Json.str "Unknown Sponsor")
  let lead_sponsor_class ← pyGetDIf lead_sponsor "class" (Json.str "") (Json.str "")
  let collaborators_data ← pyGetD sponsor_module "collaborators" (Json.arr [])
  let collaborators ← extractTruthyFields collaborators_data "name"
  let responsible_party ← pyGetD sponsor_module "responsibleParty" (Json.obj [])
  let responsible_party_type ← pyGetDIf responsible_party "type" (Json.str "") (Json.str "")
  let responsible_party_investigator ←
    pyGetDIf responsible_party "investigatorFullName" (Json.str "") (Json.str "")
  let design_module ← pyGetD protocol "designModule" (Json.obj [])
  let study_type ← pyGetD design_module "studyType" (Json.str "Unknown")
  let phases ← pyGetD design_module "phases" (Json.arr [])
  let design_info ← pyGetD design_module "designInfo" (Json.obj [])
  let allocation ← pyGetDIf design_info "allocation" (Json.str "") (Json.str "")
  let intervention_model ← pyGetDIf design_info "interventionModel" (Json.str "") (Json.str "")
  let intervention_model_description ←
    pyGetDIf design_info "interventionModelDescription" (Json.str "") (Json.str "")
  let primary_purpose ← pyGetDIf design_info "primaryPurpose" (Json.str "") (Json.str "")
  let masking_info ← pyGetDIf design_info "maskingInfo" (Json.obj []) (Json.obj [])
  let masking ← pyGetDIf masking_info "masking" (Json.str "") (Json.str "")
  let masking_description ← pyGetDIf masking_info "maskingDescription" (Json.str "") (Json.str "")
  let enrollment_info ← pyGetD design_module "enrollmentInfo" (Json.obj [])
  let enrollment_count ←
    if pyTruthy enrollment_info then do
      .ok (safe_int (← pyGet enrollment_info "count"))
    else .ok none
  let enrollment_type ← pyGetDIf enrollment_info "type" (Json.str "") (Json.str "")
  let target_duration ← pyGetD design_module "targetDuration" (Json.str "")
  let conditions_module ← pyGetD protocol "conditionsModule" (Json.obj [])
  let conditions ← pyGetD conditions_module "conditions" (Json.arr [])
  let eligibility_module ← pyGetD protocol "eligibilityModule" (Json.obj [])
  let minimum_age ← pyGetDIf eligibility_module "minimumAge" (Json.str "") (Json.str "")
  let maximum_age ← pyGetDIf eligibility_module "maximumAge" (Json.str "") (Json.str "")
  let sex ← pyGetDIf eligibility_module "sex" (Json.str "") (Json.str "")
  let healthy_raw ←
    if pyTruthy eligibility_module then pyGet eligibility_module "healthyVolunteers"
    else .ok Json.null
  let accepts_healthy_volunteers : Option Bool :=
    if jsonEqStr healthy_raw "Accepts Healthy Volunteers" then some true
    else if jsonEqStr healthy_raw "No" then some false
    else none
  let eligibility_criteria ←
    pyGetDIf eligibility_module "eligibilityCriteria" (Json.str "") (Json.str "")
  let contacts_locations_module ← pyGetD protocol "contactsLocationsModule" (Json.obj [])
  let locations_data ←
    pyGetDIf contacts_locations_module "locations" (Json.arr []) (Json.arr [])
  let location_dicts ← pyIterDicts locations_data
  let (countries, locations) := processLocations location_dicts
  let oversight_module ← pyGetD protocol "oversightModule" (Json.obj [])
  let oversight_has_dmc ←
    if pyTruthy oversight_module then pyGet oversight_module "oversightHasDmc"
    else .ok Json.null
  let is_fda_regulated_drug ←
    if pyTruthy oversight_module then pyGet oversight_module "isFdaRegulatedDrug"
    else .ok Json.null
  let is_fda_regulated_device ←
    if pyTruthy oversight_module then pyGet oversight_module "isFdaRegulatedDevice"
    else .ok Json.null
  let interventions ← extract_interventions protocol
  let primary_outcomes ← extract_primary_outcomes protocol
  let secondary_outcomes ← extract_secondary_outcomes protocol
  .ok { nct_id := raw_data.nct_id
        brief_title := brief_title
        official_title := official_title
        brief_summary := brief_summary
        detailed_description := detailed_description
        conditions := conditions
        phases := phases
        study_type := study_type
        primary_purpose := primary_purpose
        overall_status := overall_status
        why_stopped := why_stopped
        has_results := raw_data.has_results
        first_posted := first_posted
        results_first_posted := results_first_posted
        last_update_posted := last_update_posted
        study_first_submitted := study_first_submitted
        study_start_date := study_start_date
        primary_completion_date := primary_completion_date
        completion_date := completion_date
        results_first_submitted := results_first_submitted
        lead_sponsor_name := lead_sponsor_name
        lead_sponsor_class := lead_sponsor_class
        collaborators := collaborators
        responsible_party_type := responsible_party_type
        responsible_party_investigator := responsible_party_investigator
        allocation := allocation
        intervention_model := intervention_model
        intervention_model_description := intervention_model_description
        masking := masking
        masking_description := masking_description
        enrollment_count := enrollment_count
        enrollment_type := enrollment_type
        target_duration := target_duration
        countries := countries
        locations := locations
        minimum_age := minimum_age
        maximum_age := maximum_age
        sex := sex
        accepts_healthy_volunteers := accepts_healthy_volunteers
        eligibility_criteria := eligibility_criteria
        organization_study_id := organization_study_id
        secondary_ids := secondary_ids
        oversight_has_dmc := oversight_has_dmc
        is_fda_regulated_drug := is_fda_regulated_drug
        is_fda_regulated_device := is_fda_regulated_device
        interventions := interventions
        primary_outcomes := primary_outcomes
        secondary_outcomes := secondary_outcomes }

/-- `APIConfig` dataclass (`client.py` lines 17 to 25). -/
structure APIConfig where
  base_url : String := "https://clinicaltrials.gov/api/v2/studies"
  user_agent : String := "Python-Clinical-Trial-Predictor/1.0"
  timeout : Nat := 30
  page_size : Nat := 1000
  max_pages : Nat := 50
  sleep_between_requests : ℚ := 1 / 10

/-- `CORE_FIELDS` (the active `REQUIRED_FIELDS`, `client.py` lines 114
to 133). -/
def CORE_FIELDS : List String :=
  ["protocolSection.identificationModule.nctId",
   "protocolSection.identificationModule.briefTitle",
   "protocolSection.identificationModule.officialTitle",
   "protocolSection.statusModule.overallStatus",
   "protocolSection.statusModule.whyStopped",
   "protocolSection.designModule.studyType",
   "protocolSection.designModule.phases",
   "protocolSection.conditionsModule.conditions",
   "protocolSection.eligibilityModule.sex",
   "protocolSection.eligibilityModule.minimumAge",
   "protocolSection.eligibilityModule.maximumAge",
   "protocolSection.eligibilityModule.healthyVolunteers",
   "protocolSection.armsInterventionsModule.interventions",
   "protocolSection.outcomesModule.primaryOutcomes",
   "hasResults"]

/-- The query-filter dict passed around the client; the five keys the
client ever reads, each optional, with the value shapes the code
dispatches on (`isinstance(..., list)` versus string). -/
structure QueryFilters where
  intervention_type : Option String := none
  conditions : Option (Sum String (List String)) := none
  overall_status : Option (Sum String (List String)) := none
  has_results : Option Json := none
  study_type : Option String := none

/-- Python truthiness of the filter dict (`if not query_filters`): no dict
or no supplied key. -/
def queryFiltersEmpty (f : QueryFilters) : Bool :=
  f.intervention_type.isNone && f.conditions.isNone && f.overall_status.isNone &&
    f.has_results.isNone && f.study_type.isNone

/-- The `query_terms` list built by
`ClinicalTrialsAPIClient._build_request_url` (`client.py` lines 149
to 188): an intervention-type clause, one condition clause per condition,
and an overall-status clause where a list of statuses yields the single
`COMPLETED` clause only when `COMPLETED` is among them (the API does not
support OR on this field). Sequential `query_terms.append` calls are the
three concatenated groups. -/
def build_query_terms (f : QueryFilters) : List String :=
  (match f.intervention_type with
   | some t => ["AREA[InterventionType]" ++ t]
   | none => []) ++
  (match f.conditions with
   | some (.inr l) => l.map (fun c => "AREA[Condition]" ++ c)
   | some (.inl c) => ["AREA[Condition]" ++ c]
   | none => []) ++
  (match f.overall_status with
   | some (.inr l) => if l.contains "COMPLETED" then ["AREA[OverallStatus]COMPLETED"] else []
   | some (.inl s) => ["AREA[OverallStatus]" ++ s]
   | none => [])

/-- The query parameters of the URL built by `_build_request_url`
(`client.py` lines 139 to 196); the URL itself is `base_url` plus their
encoding. -/
structure URLParams where
  pageSize : Nat
  fields : String
  queryTerm : Option String
  pageToken : Option String
deriving DecidableEq, Repr

/-- `ClinicalTrialsAPIClient._build_request_url` (`client.py` lines 139
to 196), as its query parameters. A missing or empty filter dict and an
empty `query_terms` list both leave `query.term` unset. -/
def build_request_url (config : APIConfig) (query_filters : Option QueryFilters)
    (page_token : Option String) : URLParams :=
  let terms := match query_filters with
    | some f => build_query_terms f
    | none => []
  { pageSize := config.page_size
    fields := ",".intercalate CORE_FIELDS
    queryTerm := if terms.isEmpty then none else some (" AND ".intercalate terms)
    pageToken := page_token }

/-- The has-results post-filter step of `_filter_studies` (`client.py`
lines 231 to 234): enforced only when the supplied value is truthy;
result `false` means the record is dropped (`continue`). -/
def checkHasResults (f : QueryFilters) (study : Json) : Except String Bool :=
  match f.has_results with
  | some v =>
      if pyTruthy v then do
        let hr ← pyGetD study "hasResults" (Json.bool false)
        .ok (pyTruthy hr)
      else .ok true
  | none => .ok true

/-- The overall-status accessor used by the status post-filter
(`client.py` lines 238 to 240). -/
def statusOfStudy (study : Json) : Except String Json := do
  let protocol_section ← pyGetD study "protocolSection" (Json.obj [])
  let status_module ← pyGetD protocol_section "statusModule" (Json.obj [])
  pyGetD status_module "overallStatus" (Json.str "")

/-- Membership test of the status post-filter (`client.py` lines 242
to 247): list membership for a list, equality for a single string. -/
def statusMatches (cs : Json) (target : Sum String (List String)) : Bool :=
  match target with
  | .inr l => jsonInStrList cs l
  | .inl s => jsonEqStr cs s

/-- The overall-status post-filter step of `_filter_studies`. -/
def checkOverallStatus (f : QueryFilters) (study : Json) : Except String Bool :=
  match f.overall_status with
  | some target => do
      let cs ← statusOfStudy study
      .ok (statusMatches cs target)
  | none => .ok true

/-- The study-type accessor plus uppercasing used by the study-type
post-filter (`client.py` lines 251 to 256). -/
def typeUpperOfStudy (study : Json) : Except String String := do
  let protocol_section ← pyGetD study "protocolSection" (Json.obj [])
  let design_module ← pyGetD protocol_section "designModule" (Json.obj [])
  let current_type ← pyGetD design_module "studyType" (Json.str "")
  pyUpperJ current_type

/-- The study-type post-filter step of `_filter_studies`. -/
def checkStudyType (f : QueryFilters) (study : Json) : Except String Bool :=
  match f.study_type with
  | some t => do
      let cu ← typeUpperOfStudy study
      .ok (cu == pyStrUpper t)
  | none => .ok true

/-- The per-record loop of `_filter_studies`, applying the three checks in
source order and keeping the record only when none `continue`s past it. -/
def filterStudiesGo (f : QueryFilters) : List Json → Except String (List Json)
  | [] => .ok []
  | study :: rest => do
      let k1 ← checkHasResults f study
      if !k1 then filterStudiesGo f rest
      else do
        let k2 ← checkOverallStatus f study
        if !k2 then filterStudiesGo f rest
        else do
          let k3 ← checkStudyType f study
          if !k3 then filterStudiesGo f rest
          else do
            let tail ← filterStudiesGo f rest
            .ok (study :: tail)

/-- `ClinicalTrialsAPIClient._filter_studies` (`client.py` lines 223
to 261): a missing or falsy (empty) filter dict returns the input
unchanged. -/
def filter_studies (studies : List Json) (query_filters : Option QueryFilters) :
    Except String (List Json) :=
  match query_filters with
  | none => .ok studies
  | some f => if queryFiltersEmpty f then .ok studies else filterStudiesGo f studies

/-- `IngestionConfig` dataclass (`orchestrator.py` lines 18 to 28);
`retry_delay` is the float 1.0, modelled exactly as `ℚ`. -/
structure IngestionConfig where
  max_studies_per_run : Nat := 5000
  batch_size : Nat := 100
  retry_attempts : Nat := 3
  retry_delay : ℚ := 1
  filter_has_results_only : Bool := true
  filter_completed_only : Bool := true
  save_raw_data : Bool := true
  continue_on_error : Bool := true

/-- The default configuration (`IngestionConfig()`). -/
def defaultIngestionConfig : IngestionConfig := {}

/-- `IngestionStats` dataclass (`orchestrator.py` lines 31 to 52);
timestamps are abstract clock readings. -/
structure IngestionStats where
  total_fetched : Nat := 0
  successfully_processed : Nat := 0
  failed_processing : Nat := 0
  duplicate_studies : Nat := 0
  studies_with_results : Nat := 0
  start_time : Option Int := none
  end_time : Option Int := none
deriving Repr

/-- `IngestionStats.duration_seconds` (`orchestrator.py` lines 42 to 46). -/
def IngestionStats.duration_seconds (s : IngestionStats) : Int :=
  match s.start_time, s.end_time with
  | some a, some b => b - a
  | _, _ => 0

/-- `IngestionStats.success_rate` (`orchestrator.py` lines 48 to 52). -/
def IngestionStats.success_rate (s : IngestionStats) : ℚ :=
  if s.total_fetched = 0 then 0
  else (s.successfully_processed : ℚ) / (s.total_fetched : ℚ)

/-- The `allowed_statuses` list of `should_process_study`
(`orchestrator.py` line 131). -/
def allowed_statuses : List String :=
  ["COMPLETED", "ACTIVE_NOT_RECRUITING", "ENROLLING_BY_INVITATION"]

/-- `ClinicalTrialIngestor.should_process_study` (`orchestrator.py` lines
109 to 148): the five-predicate eligibility chain; `.get` on a non-dict
section value propagates the `AttributeError` the Python code raises. -/
def should_process_study (config : IngestionConfig) (api_response : PyDict) :
    Except String (Bool × String) := do
  let has_results := dictGetD api_response "hasResults" (Json.bool false)
  if config.filter_has_results_only && !pyTruthy has_results then
    .ok (false, "No results posted")
  else do
    let protocol_section := dictGetD api_response "protocolSection" (Json.obj [])
    let design_module ← pyGetD protocol_section "designModule" (Json.obj [])
    let study_type ← pyGetD design_module "studyType" (Json.str "")
    let st_upper ← pyUpperJ study_type
    if st_upper != "INTERVENTIONAL" then
      .ok (false, "Not interventional study: " ++ pyStrOf study_type)
    else do
      let status_module ← pyGetD protocol_section "statusModule" (Json.obj [])
      let overall_status ← pyGetD status_module "overallStatus" (Json.str "")
      if config.filter_completed_only && !jsonInStrList overall_status allowed_statuses then
        .ok (false, "Study not in allowed statuses: " ++ pyStrOf overall_status)
      else do
        let arms_module ← pyGetD protocol_section "armsInterventionsModule" (Json.obj [])
        let interventions ← pyGetD arms_module "interventions" (Json.arr [])
        if !pyTruthy interventions then .ok (false, "No interventions defined")
        else do
          let outcomes_module ← pyGetD protocol_section "outcomesModule" (Json.obj [])
          let primary_outcomes ← pyGetD outcomes_module "primaryOutcomes" (Json.arr [])
          if !pyTruthy primary_outcomes then .ok (false, "No primary outcomes defined")
          else .ok (true, "")

/-- The store consumed by the orchestrator, as the key-value contract the
spec gives it: keyed persistence by record id. Newest binding first, so a
re-save overwrites. Timestamp bookkeeping is not modelled. -/
def Store := List (Json × Study)

/-- `store.get_study(nct_id)`. -/
def get_study : Store → Json → Option Study
  | [], _ => none
  | (k, s) :: rest, nct_id => if jsonEq k nct_id then some s else get_study rest nct_id

/-- `store.save_study(study)`: persists under `study.nct_id`. -/
def save_study (store : Store) (study : Study) : Store :=
  (study.nct_id, study) :: store

/-- `ClinicalTrialIngestor.process_single_study` (`orchestrator.py` lines
150 to 186). The `try` block catches any raised exception and turns it
into a `(False, None, "Failed to process study: ...")` result; saving raw
debug data is a filesystem side effect with no observable pipeline state
and is skipped. The result also carries the updated store. -/
def process_single_study (config : IngestionConfig) (store : Store) (api_response : PyDict) :
    (Bool × Option Study × String) × Store :=
  match should_process_study config api_response with
  | .error e => ((false, none, "Failed to process study: " ++ e), store)
  | .ok (should, reason) =>
    if !should then ((false, none, reason), store)
    else
      match extract_raw_study_data api_response with
      | .error e => ((false, none, "Failed to process study: " ++ e), store)
      | .ok raw_data =>
        match get_study store raw_data.nct_id with
        | some existing_study => ((false, some existing_study, "Already exists"), store)
        | none =>
          match map_to_study_object raw_data with
          | .error e => ((false, none, "Failed to process study: " ++ e), store)
          | .ok study => ((true, some study, ""), save_study store study)

/-- The non-retryable vocabulary of `_process_with_retry`
(`orchestrator.py` lines 270 to 273). -/
def validation_error_messages : List String :=
  ["no results", "no primary outcomes", "no interventions",
   "not interventional", "not completed"]

/-- `any(msg in error_msg.lower() for msg in [...])` (`orchestrator.py`
lines 270 to 273): case-insensitive substring match against the
non-retryable vocabulary. -/
def isValidationError (error_msg : String) : Bool :=
  validation_error_messages.any (fun m => strContainsSub (pyStrLower error_msg) m)

/-- The attempt loop of `ClinicalTrialIngestor._process_with_retry`
(`orchestrator.py` lines 256 to 285) driving `process_single_study`; fuel
is the remaining attempts. `process_single_study` returns rather than
raises, so only the returned triple is inspected; a failed attempt leaves
the store untouched, which the threading makes explicit. -/
def processWithRetryGo (config : IngestionConfig) (study_data : PyDict) :
    Nat → Store → String → (Bool × Option Study × String) × Store
  | 0, store, last_error => ((false, none, last_error), store)
  | Nat.succ fuel, store, _ =>
    match process_single_study config store study_data with
    | ((success, study, error_msg), store2) =>
      if success || error_msg == "Already exists" then ((success, study, error_msg), store2)
      else if isValidationError error_msg then ((false, none, error_msg), store2)
      else processWithRetryGo config study_data fuel store2 error_msg

/-- `ClinicalTrialIngestor._process_with_retry` (`orchestrator.py` lines
256 to 285), as used by the ingestion loop. -/
def process_with_retry (config : IngestionConfig) (store : Store) (study_data : PyDict) :
    (Bool × Option Study × String) × Store :=
  processWithRetryGo config study_data config.retry_attempts store ""

/-- An arbitrary attempt outcome for the retry wrapper viewed abstractly:
either a raised exception (`.error`) caught by the loop body, or the
triple a processing call returns. -/
def AttemptOutcome := Except String (Bool × Option Study × String)

/-- The retry loop of `_process_with_retry` over an arbitrary per-attempt
outcome function, instrumented with the number of attempts made and the
`time.sleep(retry_delay * (attempt + 1))` delays performed (slept only
when `attempt < retry_attempts - 1`, in both the failure and the exception
branch). -/
def retryTraceGo (retry_attempts : Nat) (retry_delay : ℚ)
    (step : Nat → AttemptOutcome) (attempt : Nat) (last_error : String) :
    (Bool × Option Study × String) × Nat × List ℚ :=
  if _h : attempt < retry_attempts then
    let sl : List ℚ :=
      if attempt < retry_attempts - 1 then [retry_delay * ((attempt : ℚ) + 1)] else []
    match step attempt with
    | .ok (success, study, error_msg) =>
      if success || error_msg == "Already exists" then ((success, study, error_msg), attempt + 1, [])
      else if isValidationError error_msg then ((false, none, error_msg), attempt + 1, [])
      else
        match retryTraceGo retry_attempts retry_delay step (attempt + 1) error_msg with
        | (res, att, rest) => (res, att, sl ++ rest)
    | .error e =>
        match retryTraceGo retry_attempts retry_delay step (attempt + 1) e with
        | (res, att, rest) => (res, att, sl ++ rest)
  else ((false, none, last_error), attempt, [])
termination_by retry_attempts - attempt
decreasing_by
  · omega
  · omega

/-- `_process_with_retry` over an abstract attempt function, from the
first attempt: result triple, attempts made, sleeps performed. -/
def process_with_retry_trace (config : IngestionConfig) (step : Nat → AttemptOutcome) :
    (Bool × Option Study × String) × Nat × List ℚ :=
  retryTraceGo config.retry_attempts config.retry_delay step 0 ""

/-- The per-record statistics update of the `ingest_studies` loop body
(`orchestrator.py` lines 220 to 232): fetched count plus exactly one of
the success / duplicate / failure branches, with the results counter on
the success branch. -/
def apply_record_stats (stats : IngestionStats) (r : Bool × Option Study × String) :
    IngestionStats :=
  let stats1 := { stats with total_fetched := stats.total_fetched + 1 }
  match r with
  | (success, study, error_msg) =>
    if success then
      let stats2 :=
        { stats1 with successfully_processed := stats1.successfully_processed + 1 }
      if (match study with
          | some s => pyTruthy s.has_results
          | none => false) then
        { stats2 with studies_with_results := stats2.studies_with_results + 1 }
      else stats2
    else if error_msg == "Already exists" then
      { stats1 with duplicate_studies := stats1.duplicate_studies + 1 }
    else { stats1 with failed_processing := stats1.failed_processing + 1 }

/-- The record loop of `ClinicalTrialIngestor.ingest_studies`
(`orchestrator.py` lines 212 to 245) over the list of records the stream
yields. Returns the statistics, the final store, and the records left
unconsumed by an early `break`; progress logging is observational only.
On the `max_studies` break the current record had already been yielded by
the generator but left unhandled, so it is returned with the rest. -/
def ingest_loop (config : IngestionConfig) (max_studies : Nat) :
    Store → Nat → IngestionStats → List PyDict → IngestionStats × Store × List PyDict
  | store, _, stats, [] => (stats, store, [])
  | store, studies_processed, stats, study_data :: rest =>
    if studies_processed ≥ max_studies then (stats, store, study_data :: rest)
    else
      match process_with_retry config store study_data with
      | (r, store2) =>
        let stats2 := apply_record_stats stats r
        if r.1 then ingest_loop config max_studies store2 (studies_processed + 1) stats2 rest
        else if r.2.2 == "Already exists" then
          ingest_loop config max_studies store2 (studies_processed + 1) stats2 rest
        else if config.continue_on_error then
          ingest_loop config max_studies store2 (studies_processed + 1) stats2 rest
        else (stats2, store2, rest)

/-- `ClinicalTrialIngestor.ingest_studies` (`orchestrator.py` lines 188
to 254). The HTTP stream is the given record list; `connection_ok` is the
`test_connection()` probe result; a failed probe aborts with zero
progress. The `finally` block always sets `end_time`, so statistics are
finalized on every path. A `max_studies` argument of `0` is falsy and
falls back to the configured maximum. -/
def ingest_studies (config : IngestionConfig) (store : Store) (connection_ok : Bool)
    (records : List PyDict) (max_studies_arg : Option Nat) (start_time end_time : Int) :
    IngestionStats × Store × List PyDict :=
  let stats0 : IngestionStats := { start_time := some start_time }
  let max_studies := match max_studies_arg with
    | some n => if n = 0 then config.max_studies_per_run else n
    | none => config.max_studies_per_run
  if !connection_ok then ({ stats0 with end_time := some end_time }, store, records)
  else
    match ingest_loop config max_studies store 0 stats0 records with
    | (s, st, rem) => ({ s with end_time := some end_time }, st, rem)

/-- Total dict access on a JSON value, yielding the default when the value
is not a dict; used only by the spec-side eligibility chain, whose
premises guarantee the value is a dict. -/
def jObjGetD (x : Json) (key : String) (dflt : Json) : Json :=
  match x with
  | .obj l => dictGetD l key dflt
  | _ => dflt

/-- The spec-side eligibility chain, following section 4.2 of the spec
word for word: five short-circuiting predicates over the record, first
failing reason surfaced, `(true, "")` when all pass. Written as a total
function for comparison with the fallible `should_process_study`. -/
def shouldProcessSpec (config : IngestionConfig) (rec : PyDict) : Bool × String :=
  let has_results := dictGetD rec "hasResults" (Json.bool false)
  if config.filter_has_results_only && !pyTruthy has_results then
    (false, "No results posted")
  else
    let protocol_section := dictGetD rec "protocolSection" (Json.obj [])
    let design_module := jObjGetD protocol_section "designModule" (Json.obj [])
    let study_type := jObjGetD design_module "studyType" (Json.str "")
    if pyStrUpper (pyStrOf study_type) != "INTERVENTIONAL" then
      (false, "Not interventional study: " ++ pyStrOf study_type)
    else
      let status_module := jObjGetD protocol_section "statusModule" (Json.obj [])
      let overall_status := jObjGetD status_module "overallStatus" (Json.str "")
      if config.filter_completed_only && !jsonInStrList overall_status allowed_statuses then
        (false, "Study not in allowed statuses: " ++ pyStrOf overall_status)
      else
        let arms_module := jObjGetD protocol_section "armsInterventionsModule" (Json.obj [])
        let interventions := jObjGetD arms_module "interventions" (Json.arr [])
        if !pyTruthy interventions then (false, "No interventions defined")
        else
          let outcomes_module := jObjGetD protocol_section "outcomesModule" (Json.obj [])
          let primary_outcomes := jObjGetD outcomes_module "primaryOutcomes" (Json.arr [])
          if !pyTruthy primary_outcomes then (false, "No primary outcomes defined")
          else (true, "")

/-- Well-formedness of a record for the eligibility chain: every section
value `should_process_study` calls `.get` on is a dict and the study type
is a string. Exactly the shapes under which the Python code cannot raise. -/
def spSections (rec : PyDict) : Prop :=
  ∃ ps dm sm am om st,
    dictGetD rec "protocolSection" (Json.obj []) = Json.obj ps ∧
    dictGetD ps "designModule" (Json.obj []) = Json.obj dm ∧
    dictGetD dm "studyType" (Json.str "") = Json.str st ∧
    dictGetD ps "statusModule" (Json.obj []) = Json.obj sm ∧
    dictGetD ps "armsInterventionsModule" (Json.obj []) = Json.obj am ∧
    dictGetD ps "outcomesModule" (Json.obj []) = Json.obj om

/-- Is this `query.term` clause an overall-status clause? -/
def isStatusClause (s : String) : Bool :=
  startsWithL s.data "AREA[OverallStatus]".data

/-- The bucket invariant of the run statistics: every fetched record sits
in exactly one of the success / failure / duplicate buckets, and the
results counter never exceeds the success counter. -/
def stats_invariant (s : IngestionStats) : Prop :=
  s.total_fetched = s.successfully_processed + s.failed_processing + s.duplicate_studies ∧
    s.studies_with_results ≤ s.successfully_processed

/-- A study already present in the store under id NCT00000001. -/
def dupStudy : Study :=
  { nct_id := Json.str "NCT00000001", brief_title := Json.str "Old title" }

/-- A store already containing NCT00000001. -/
def dupStore : Store := [(Json.str "NCT00000001", dupStudy)]

/-- A record for NCT00000001 with no posted results (ineligible under the
default configuration) whose id is already in `dupStore`. -/
def dupIneligibleRecord : PyDict :=
  [("hasResults", Json.bool false),
   ("protocolSection",
    Json.obj [("identificationModule", Json.obj [("nctId", Json.str "NCT00000001")])])]

/-- A fully eligible record for NCT00000001. -/
def eligibleRecord : PyDict :=
  [("hasResults", Json.bool true),
   ("protocolSection",
    Json.obj
      [("identificationModule", Json.obj [("nctId", Json.str "NCT00000001")]),
       ("designModule", Json.obj [("studyType", Json.str "INTERVENTIONAL")]),
       ("statusModule", Json.obj [("overallStatus", Json.str "COMPLETED")]),
       ("armsInterventionsModule",
        Json.obj [("interventions", Json.arr [Json.obj [("name", Json.str "Arm A")]])]),
       ("outcomesModule",
        Json.obj [("primaryOutcomes", Json.arr [Json.obj [("measure", Json.str "Score")]])])])]

/-- A record whose `protocolSection` is a number, not a mapping. -/
def nonMappingRecord : PyDict :=
  [("hasResults", Json.bool true), ("protocolSection", Json.num 0)]

/-- An otherwise eligible record with an empty interventions list. -/
def noInterventionsRecord : PyDict :=
  [("hasResults", Json.bool true),
   ("protocolSection",
    Json.obj
      [("identificationModule", Json.obj [("nctId", Json.str "NCT00000002")]),
       ("designModule", Json.obj [("studyType", Json.str "INTERVENTIONAL")]),
       ("statusModule", Json.obj [("overallStatus", Json.str "COMPLETED")]),
       ("armsInterventionsModule", Json.obj [("interventions", Json.arr [])]),
       ("outcomesModule",
        Json.obj [("primaryOutcomes", Json.arr [Json.obj [("measure", Json.str "Score")]])])])]

/-- A post-filter record whose has-results flag is true. -/
def hrStudy : Json := Json.obj [("hasResults", Json.bool true)]

/-- A filter set supplying `has_results = False`. -/
def hrFilters : QueryFilters := { has_results := some (Json.bool false) }

/-- A filter set selecting status COMPLETED. -/
def statusFilters : QueryFilters := { overall_status := some (Sum.inl "COMPLETED") }

/-- A post-filter record with overall status COMPLETED. -/
def completedStudy : Json :=
  Json.obj [("protocolSection",
    Json.obj [("statusModule", Json.obj [("overallStatus", Json.str "COMPLETED")])])]

/-- A post-filter record with overall status TERMINATED. -/
def terminatedStudy : Json :=
  Json.obj [("protocolSection",
    Json.obj [("statusModule", Json.obj [("overallStatus", Json.str "TERMINATED")])])]

/-- A filter set requesting two statuses, neither primary. -/
def multiStatusFilters : QueryFilters :=
  { overall_status := some (Sum.inr ["TERMINATED", "WITHDRAWN"]) }

/-- A filter set with an intervention type, conditions, and a multi-status
list containing the primary status. -/
def richFilters : QueryFilters :=
  { intervention_type := some "BEHAVIORAL"
    conditions := some (Sum.inr ["Obesity", "Anxiety"])
    overall_status := some (Sum.inr ["COMPLETED", "TERMINATED"]) }

/-- A filter set with a single string status. -/
def singleStatusFilters : QueryFilters :=
  { intervention_type := some "BEHAVIORAL"
    overall_status := some (Sum.inl "RECRUITING") }

/-- An attempt function that always raises a transient error. -/
def transientStep : Nat → AttemptOutcome := fun _ => Except.error "ConnectionError"

/-- An attempt function that always fails with a non-retryable reason. -/
def validationStep : Nat → AttemptOutcome :=
  fun _ => Except.ok (false, none, "No interventions defined")

/-- A three-attempt configuration with unit delay. -/
def traceConfig : IngestionConfig := { retry_attempts := 3, retry_delay := 1 }

/-- The raw data `extract_raw_study_data` produces for `eligibleRecord`. -/
def eligibleRaw : RawStudyData :=
  { nct_id := Json.str "NCT00000001"
    protocol_section :=
      Json.obj
        [("identificationModule", Json.obj [("nctId", Json.str "NCT00000001")]),
         ("designModule", Json.obj [("studyType", Json.str "INTERVENTIONAL")]),
         ("statusModule", Json.obj [("overallStatus", Json.str "COMPLETED")]),
         ("armsInterventionsModule",
          Json.obj [("interventions", Json.arr [Json.obj [("name", Json.str "Arm A")]])]),
         ("outcomesModule",
          Json.obj [("primaryOutcomes", Json.arr [Json.obj [("measure", Json.str "Score")]])])]
    results_section := Json.null
    derived_section := Json.null
    has_results := Json.bool true }

/-- A configuration with `continue_on_error` disabled. -/
def haltConfig : IngestionConfig := { continue_on_error := false }

/-- On a nonempty string the status mapper is the uppercased table lookup
with `UNKNOWN` default. -/
theorem map_study_status_str_eq (s : String) (hs : s ≠ "") :
    map_study_status (Json.str s) =
      Except.ok ((status_mapping.lookup (pyStrUpper s)).getD StudyStatus.UNKNOWN) := by
  have htr : pyTruthy (Json.str s) = true := by simp [pyTruthy, hs]
  simp [map_study_status, htr, pyUpperJ]
  rfl

/-- Claim C1 (counterexample): the status mapper is not case-sensitive.
The code `"completed"` differs from the table key `"COMPLETED"` only in
letter case, yet it maps to `COMPLETED`, not to `UNKNOWN` as the claim
requires. -/
theorem map_study_status_lowercase_counterexample :
    map_study_status (Json.str "completed") = Except.ok StudyStatus.COMPLETED ∧
      StudyStatus.COMPLETED ≠ StudyStatus.UNKNOWN :=
  ⟨rfl, by decide⟩

/-- Claim C1 (amended): the status mapper uppercases the incoming code and
then looks it up in the fixed table, so matching is case-insensitive; any
code whose uppercasing is not a table key maps to `UNKNOWN`, as does a
missing or falsy status. -/
theorem map_study_status_case_insensitive :
    (∀ k e, (k, e) ∈ status_mapping → ∀ s : String, pyStrUpper s = k →
      map_study_status (Json.str s) = Except.ok e)
    ∧ (∀ s : String, status_mapping.lookup (pyStrUpper s) = none →
      map_study_status (Json.str s) = Except.ok StudyStatus.UNKNOWN)
    ∧ (∀ j : Json, pyTruthy j = false → map_study_status j = Except.ok StudyStatus.UNKNOWN) := by
  refine ⟨?_, ?_, ?_⟩
  · intro k e hmem s hup
    fin_cases hmem <;>
      · have hs : s ≠ "" := by
          intro h0
          rw [h0] at hup
          exact absurd hup (by decide)
        rw [map_study_status_str_eq s hs, hup]
        rfl
  · intro s hnone
    by_cases hs : s = ""
    · subst hs; rfl
    · rw [map_study_status_str_eq s hs, hnone]
      rfl
  · intro j hj
    simp [map_study_status, hj]

/-- Claim C1 (witness): the amended theorem applied at concrete codes. -/
theorem map_study_status_case_insensitive_applied :
    map_study_status (Json.str "Completed") = Except.ok StudyStatus.COMPLETED ∧
      map_study_status (Json.str "banana") = Except.ok StudyStatus.UNKNOWN ∧
      map_study_status Json.null = Except.ok StudyStatus.UNKNOWN := by
  refine ⟨?_, ?_, ?_⟩
  · exact map_study_status_case_insensitive.1 "COMPLETED" StudyStatus.COMPLETED (by decide)
      "Completed" (by decide)
  · exact map_study_status_case_insensitive.2.1 "banana" (by decide)
  · exact map_study_status_case_insensitive.2.2 Json.null rfl

/-- Claim C8: date parsing is total with an optional result:
`{year: 2020}` gives the valid date with month 1 and day 1; `{}` gives
`none`; a non-numeric year gives `none` instead of propagating the parse
exception; and month and day default to 1 for every in-range year. -/
theorem parse_date_spec :
    parse_date (Json.obj [("year", Json.num 2020)]) = some ⟨2020, 1, 1⟩ ∧
      parse_date (Json.obj []) = none ∧
      parse_date (Json.obj [("year", Json.str "bad")]) = none ∧
      (∀ y : Int, 1 ≤ y → y ≤ 9999 →
        parse_date (Json.obj [("year", Json.num y)]) = some ⟨y, 1, 1⟩) := by
  refine ⟨rfl, rfl, rfl, ?_⟩
  intro y h1 h2
  have hy : pyTruthy (Json.num y) = true := by
    simp [pyTruthy]
    omega
  have hstep : parse_date (Json.obj [("year", Json.num y)]) =
      if pyTruthy (Json.num y) then mkDatetime y 1 1 else none := rfl
  have hdays : daysInMonth y 1 = 31 := rfl
  rw [hstep, if_pos hy]
  rw [mkDatetime, if_pos]
  refine ⟨h1, h2, by norm_num, by norm_num, by norm_num, ?_⟩
  rw [hdays]
  norm_num

/-- Claim C8 (witness): the general defaulting conjunct applied at a
concrete year. -/
theorem parse_date_spec_applied :
    (1 : Int) ≤ 1999 ∧ (1999 : Int) ≤ 9999 ∧
      parse_date (Json.obj [("year", Json.num 1999)]) = some ⟨1999, 1, 1⟩ :=
  ⟨by norm_num, by norm_num, parse_date_spec.2.2.2 1999 (by norm_num) (by norm_num)⟩

/-- Claim C10: a constructed `Study` always carries an enum member as its
overall status: each member is found by its own value string, a string
argument equal to a member value coerces to that member, any other string
coerces to `UNKNOWN` rather than raising, and an enum argument is kept. -/
theorem study_overall_status_always_enum :
    (∀ e : StudyStatus, statusValueTable.lookup e.value = some e)
    ∧ (∀ n t s e, statusValueTable.lookup s = some e →
        (mkStudy n t (Sum.inl s)).overall_status = e)
    ∧ (∀ n t s, statusValueTable.lookup s = none →
        (mkStudy n t (Sum.inl s)).overall_status = StudyStatus.UNKNOWN)
    ∧ (∀ n t e, (mkStudy n t (Sum.inr e)).overall_status = e) := by
  refine ⟨?_, ?_, ?_, ?_⟩
  · intro e; cases e <;> rfl
  · intro n t s e h
    simp [mkStudy, study_post_init, studyStatusOfValue, h]
  · intro n t s h
    simp [mkStudy, study_post_init, studyStatusOfValue, h]
  · intro n t e; rfl

/-- Claim C10 (witness): the coercion applied at a valid value and at a
case-mismatched (hence invalid) value. -/
theorem study_overall_status_always_enum_applied :
    (mkStudy Json.null (Json.str "t") (Sum.inl "TERMINATED")).overall_status =
        StudyStatus.TERMINATED ∧
      (mkStudy Json.null (Json.str "t") (Sum.inl "completed")).overall_status =
        StudyStatus.UNKNOWN := by
  constructor
  · exact study_overall_status_always_enum.2.1 Json.null (Json.str "t") "TERMINATED"
      StudyStatus.TERMINATED (by decide)
  · exact study_overall_status_always_enum.2.2.1 Json.null (Json.str "t") "completed" (by decide)

/-- Bind of a successful `Except` computation. -/
@[simp]
theorem exceptBind_ok {α β : Type} (a : α) (f : α → Except String β) :
    (Except.ok a : Except String α) >>= f = f a := rfl

/-- Bind of a failed `Except` computation. -/
@[simp]
theorem exceptBind_error {α β : Type} (e : String) (f : α → Except String β) :
    (Except.error e : Except String α) >>= f = Except.error e := rfl

/-- An intervention-type clause never reads as an overall-status clause. -/
theorem isStatusClause_intervention (t : String) :
    isStatusClause ("AREA[InterventionType]" ++ t) = false := by
  simp [isStatusClause, String.data_append, startsWithL]

/-- A condition clause never reads as an overall-status clause. -/
theorem isStatusClause_condition (c : String) :
    isStatusClause ("AREA[Condition]" ++ c) = false := by
  simp [isStatusClause, String.data_append, startsWithL]

/-- An overall-status clause always reads as one. -/
theorem isStatusClause_status (s : String) :
    isStatusClause ("AREA[OverallStatus]" ++ s) = true := by
  simp [isStatusClause, String.data_append, startsWithL]

/-- Condition clauses drop out of the status-clause filter. -/
theorem filter_status_condition_map (l : List String) :
    (l.map (fun c => "AREA[Condition]" ++ c)).filter isStatusClause = [] := by
  induction l with
  | nil => rfl
  | cons h t ih => simp [List.filter_cons, isStatusClause_condition, ih]

/-- The non-status clause groups of `build_query_terms` filter away. -/
theorem filter_status_prefix_groups (f : QueryFilters) :
    ((match f.intervention_type with
      | some t => ["AREA[InterventionType]" ++ t]
      | none => []) ++
     (match f.conditions with
      | some (.inr l) => l.map (fun c => "AREA[Condition]" ++ c)
      | some (.inl c) => ["AREA[Condition]" ++ c]
      | none => [])).filter isStatusClause = [] := by
  rw [List.filter_append]
  have h1 : (match f.intervention_type with
      | some t => ["AREA[InterventionType]" ++ t]
      | none => []).filter isStatusClause = [] := by
    cases f.intervention_type with
    | none => rfl
    | some t => simp [List.filter_cons, isStatusClause_intervention]
  have h2 : (match f.conditions with
      | some (.inr l) => l.map (fun c => "AREA[Condition]" ++ c)
      | some (.inl c) => ["AREA[Condition]" ++ c]
      | none => []).filter isStatusClause = [] := by
    cases f.conditions with
    | none => rfl
    | some v =>
      cases v with
      | inl c => simp [List.filter_cons, isStatusClause_condition]
      | inr l => exact filter_status_condition_map l
  rw [h1, h2]
  rfl

/-- An overall-status clause literal. -/
theorem isStatusClause_completed : isStatusClause "AREA[OverallStatus]COMPLETED" = true := by
  decide

/-- Claim C4 (counterexample): a multi-status filter that does not contain
the primary status COMPLETED produces no overall-status clause at all, so
no `query.term` is emitted, although the claim requires exactly one
clause. -/
theorem build_url_multi_status_missing_clause :
    multiStatusFilters.overall_status = some (Sum.inr ["TERMINATED", "WITHDRAWN"]) ∧
      (["TERMINATED", "WITHDRAWN"] : List String).length > 1 ∧
      build_query_terms multiStatusFilters = [] ∧
      (build_request_url {} (some multiStatusFilters) none).queryTerm = none :=
  ⟨rfl, by decide, rfl, rfl⟩

/-- Claim C4 (amended): for a status list, exactly one overall-status
clause (carrying the primary status COMPLETED) is in the query term when
COMPLETED is among the requested statuses and none otherwise; a single
string status yields exactly one clause carrying that status; and the
generated query parameters never depend on a has-results filter (no
has-results clause is ever emitted). -/
theorem build_url_status_clause_spec :
    (∀ f l, f.overall_status = some (Sum.inr l) →
      (build_query_terms f).filter isStatusClause =
        if l.contains "COMPLETED" then ["AREA[OverallStatus]COMPLETED"] else [])
    ∧ (∀ f s, f.overall_status = some (Sum.inl s) →
      (build_query_terms f).filter isStatusClause = ["AREA[OverallStatus]" ++ s])
    ∧ (∀ config f x p,
        build_request_url config (some { f with has_results := x }) p =
          build_request_url config (some f) p) := by
  refine ⟨?_, ?_, ?_⟩
  · intro f l hf
    rw [build_query_terms, hf]
    rw [List.filter_append, filter_status_prefix_groups, List.nil_append]
    by_cases hc : l.contains "COMPLETED" <;>
      simp [hc, List.filter_cons, isStatusClause_completed]
  · intro f s hf
    rw [build_query_terms, hf]
    rw [List.filter_append, filter_status_prefix_groups, List.nil_append]
    simp [List.filter_cons, isStatusClause_status]
  · intro config f x p
    rfl

/-- Claim C4 (witness): the amended theorem applied at a list containing
the primary status and at a single string status. -/
theorem build_url_status_clause_spec_applied :
    (build_query_terms richFilters).filter isStatusClause =
        ["AREA[OverallStatus]COMPLETED"] ∧
      (build_query_terms singleStatusFilters).filter isStatusClause =
        ["AREA[OverallStatus]" ++ "RECRUITING"] ∧
      build_request_url {} (some { richFilters with has_results := some (Json.bool true) })
          none =
        build_request_url {} (some richFilters) none := by
  refine ⟨?_, ?_, ?_⟩
  · have := build_url_status_clause_spec.1 richFilters ["COMPLETED", "TERMINATED"] rfl
    rw [this]
    rfl
  · exact build_url_status_clause_spec.2.1 singleStatusFilters "RECRUITING" rfl
  · exact build_url_status_clause_spec.2.2 {} richFilters (some (Json.bool true)) none

/-- Claim C2 (counterexample): a record whose id is already in the store
is not counted as a duplicate when it fails eligibility: the eligibility
check runs first and its reason is returned, not "Already exists". -/
theorem duplicate_present_counted_as_ineligible :
    get_study dupStore (Json.str "NCT00000001") = some dupStudy ∧
      process_single_study defaultIngestionConfig dupStore dupIneligibleRecord =
        ((false, none, "No results posted"), dupStore) :=
  ⟨rfl, rfl⟩

/-- Claim C2 (amended): per-record handling runs `should_process_study`
and raw-id extraction first; the store lookup happens after them and
before mapping. An ineligible record returns its eligibility reason even
when its id is in the store; an eligible record whose id is in the store
is counted as a duplicate ("Already exists") with the store unchanged, so
mapping and saving are skipped. -/
theorem duplicate_after_eligibility_before_mapping :
    (∀ config store rec reason,
      should_process_study config rec = Except.ok (false, reason) →
      process_single_study config store rec = ((false, none, reason), store))
    ∧ (∀ config store rec reason raw existing,
      should_process_study config rec = Except.ok (true, reason) →
      extract_raw_study_data rec = Except.ok raw →
      get_study store raw.nct_id = some existing →
      process_single_study config store rec = ((false, some existing, "Already exists"), store)) := by
  constructor
  · intro config store rec reason h
    simp [process_single_study, h]
  · intro config store rec reason raw existing h1 h2 h3
    simp [process_single_study, h1, h2, h3]

/-- Claim C2 (witness): the amended theorem applied to an eligible record
whose id is already stored. -/
theorem duplicate_after_eligibility_before_mapping_applied :
    should_process_study defaultIngestionConfig eligibleRecord = Except.ok (true, "") ∧
      extract_raw_study_data eligibleRecord = Except.ok eligibleRaw ∧
      get_study dupStore eligibleRaw.nct_id = some dupStudy ∧
      process_single_study defaultIngestionConfig dupStore eligibleRecord =
        ((false, some dupStudy, "Already exists"), dupStore) := by
  refine ⟨rfl, rfl, rfl, ?_⟩
  exact duplicate_after_eligibility_before_mapping.2 defaultIngestionConfig dupStore
    eligibleRecord "" eligibleRaw dupStudy rfl rfl rfl

/-- Claim C5 (counterexample): `should_process_study` is not total over
arbitrary nested JSON mappings: with posted results and a numeric
`protocolSection`, the `.get` call on that section raises
(`AttributeError`), it does not return a pair. -/
theorem should_process_raises_counterexample :
    should_process_study defaultIngestionConfig nonMappingRecord =
      Except.error "AttributeError: get" :=
  rfl

/-- Claim C5 (amended): on records whose accessed sections are mappings
and whose study type is a string, `should_process_study` never raises and
computes exactly the spec's five-predicate short-circuit chain, first
failing reason included and `(true, "")` when all five pass; totality over
arbitrary nested JSON fails (see the counterexample), so the chain is
guaranteed only on such well-formed records. -/
theorem should_process_refines_spec_chain :
    ∀ config rec, spSections rec →
      should_process_study config rec = Except.ok (shouldProcessSpec config rec) := by
  intro config rec h
  obtain ⟨ps, dm, sm, am, om, st, h1, h2, h3, h4, h5, h6⟩ := h
  by_cases hb1 :
      (config.filter_has_results_only && !pyTruthy (dictGetD rec "hasResults" (Json.bool false)))
        = true
  · simp [should_process_study, shouldProcessSpec, hb1]
  · simp only [Bool.not_eq_true] at hb1
    rw [should_process_study, shouldProcessSpec]
    simp only [hb1, Bool.false_eq_true, if_false]
    rw [h1]
    simp only [jObjGetD, pyGetD, exceptBind_ok]
    rw [h2]
    simp only [jObjGetD, pyGetD, exceptBind_ok]
    rw [h3]
    simp only [pyUpperJ, pyStrOf, exceptBind_ok]
    by_cases hb2 : (pyStrUpper st != "INTERVENTIONAL") = true
    · simp [hb2]
    · simp only [Bool.not_eq_true] at hb2
      simp only [hb2, Bool.false_eq_true, if_false]
      rw [h4]
      simp only [jObjGetD, pyGetD, exceptBind_ok]
      by_cases hb3 :
          (config.filter_completed_only &&
            !jsonInStrList (dictGetD sm "overallStatus" (Json.str "")) allowed_statuses) = true
      · simp [hb3]
      · simp only [Bool.not_eq_true] at hb3
        simp only [hb3, Bool.false_eq_true, if_false]
        rw [h5]
        simp only [jObjGetD, pyGetD, exceptBind_ok]
        by_cases hb4 : (!pyTruthy (dictGetD am "interventions" (Json.arr []))) = true
        · simp [hb4]
        · simp only [Bool.not_eq_true] at hb4
          simp only [hb4, Bool.false_eq_true, if_false]
          simp only [h6, jObjGetD, pyGetD, exceptBind_ok]
          by_cases hb5 : (!pyTruthy (dictGetD om "primaryOutcomes" (Json.arr []))) = true
          · simp [hb5]
          · simp only [Bool.not_eq_true] at hb5
            simp only [hb5, Bool.false_eq_true, if_false]

/-- Claim C5 (witness): the refinement applied to well-formed records, one
failing each predicate in isolation and one passing all five. -/
theorem should_process_refines_spec_chain_applied :
    should_process_study defaultIngestionConfig noInterventionsRecord =
        Except.ok (false, "No interventions defined") ∧
      should_process_study defaultIngestionConfig eligibleRecord = Except.ok (true, "") := by
  constructor
  · have hw : spSections noInterventionsRecord := by
      refine ⟨_, _, _, _, _, "INTERVENTIONAL", rfl, rfl, rfl, rfl, rfl, rfl⟩
    have := should_process_refines_spec_chain defaultIngestionConfig noInterventionsRecord hw
    rw [this]
    rfl
  · have hw : spSections eligibleRecord := by
      refine ⟨_, _, _, _, _, "INTERVENTIONAL", rfl, rfl, rfl, rfl, rfl, rfl⟩
    have := should_process_refines_spec_chain defaultIngestionConfig eligibleRecord hw
    rw [this]
    rfl

/-- A record passing the has-results check with a truthy requested value
really carries a truthy has-results field. -/
theorem checkHasResults_ok_true {f : QueryFilters} {s : Json}
    (h : checkHasResults f s = Except.ok true) :
    ∀ v, f.has_results = some v → pyTruthy v = true →
      ∃ hr, pyGetD s "hasResults" (Json.bool false) = Except.ok hr ∧ pyTruthy hr = true := by
  intro v hv htr
  simp only [checkHasResults, hv, htr, if_true] at h
  cases hg : pyGetD s "hasResults" (Json.bool false) with
  | error e => rw [hg] at h; simp at h
  | ok hr =>
    rw [hg] at h
    simp only [exceptBind_ok] at h
    injection h with h'
    exact ⟨hr, rfl, h'⟩

/-- A record passing the status check matches the requested status set. -/
theorem checkOverallStatus_ok_true {f : QueryFilters} {s : Json}
    (h : checkOverallStatus f s = Except.ok true) :
    ∀ tgt, f.overall_status = some tgt →
      ∃ cs, statusOfStudy s = Except.ok cs ∧ statusMatches cs tgt = true := by
  intro tgt htgt
  simp only [checkOverallStatus, htgt] at h
  cases hg : statusOfStudy s with
  | error e => rw [hg] at h; simp at h
  | ok cs =>
    rw [hg] at h
    simp only [exceptBind_ok] at h
    injection h with h'
    exact ⟨cs, rfl, h'⟩

/-- A record passing the study-type check has the requested type up to
case. -/
theorem checkStudyType_ok_true {f : QueryFilters} {s : Json}
    (h : checkStudyType f s = Except.ok true) :
    ∀ t, f.study_type = some t →
      ∃ cu, typeUpperOfStudy s = Except.ok cu ∧ cu = pyStrUpper t := by
  intro t ht
  simp only [checkStudyType, ht] at h
  cases hg : typeUpperOfStudy s with
  | error e => rw [hg] at h; simp at h
  | ok cu =>
    rw [hg] at h
    simp only [exceptBind_ok] at h
    injection h with h'
    exact ⟨cu, rfl, eq_of_beq h'⟩

/-- The post-filter loop returns an order-preserving subsequence whose
members pass all three checks. -/
theorem filterStudiesGo_sound (f : QueryFilters) :
    ∀ studies out, filterStudiesGo f studies = Except.ok out →
      List.Sublist out studies ∧
      ∀ s ∈ out, checkHasResults f s = Except.ok true ∧
        checkOverallStatus f s = Except.ok true ∧ checkStudyType f s = Except.ok true := by
  intro studies
  induction studies with
  | nil =>
    intro out h
    simp only [filterStudiesGo] at h
    injection h with h'
    subst h'
    exact ⟨List.nil_sublist [], by simp⟩
  | cons s rest ih =>
    intro out h
    rw [filterStudiesGo] at h
    cases hc1 : checkHasResults f s with
    | error e => rw [hc1] at h; simp at h
    | ok k1 =>
      rw [hc1] at h
      simp only [exceptBind_ok] at h
      cases k1 with
      | false =>
        simp only [Bool.not_false, if_true] at h
        obtain ⟨hsub, hprops⟩ := ih out h
        exact ⟨hsub.cons s, hprops⟩
      | true =>
        simp only [Bool.not_true, Bool.false_eq_true, if_false] at h
        cases hc2 : checkOverallStatus f s with
        | error e => rw [hc2] at h; simp at h
        | ok k2 =>
          rw [hc2] at h
          simp only [exceptBind_ok] at h
          cases k2 with
          | false =>
            simp only [Bool.not_false, if_true] at h
            obtain ⟨hsub, hprops⟩ := ih out h
            exact ⟨hsub.cons s, hprops⟩
          | true =>
            simp only [Bool.not_true, Bool.false_eq_true, if_false] at h
            cases hc3 : checkStudyType f s with
            | error e => rw [hc3] at h; simp at h
            | ok k3 =>
              rw [hc3] at h
              simp only [exceptBind_ok] at h
              cases k3 with
              | false =>
                simp only [Bool.not_false, if_true] at h
                obtain ⟨hsub, hprops⟩ := ih out h
                exact ⟨hsub.cons s, hprops⟩
              | true =>
                simp only [Bool.not_true, Bool.false_eq_true, if_false] at h
                cases ht : filterStudiesGo f rest with
                | error e => rw [ht] at h; simp at h
                | ok tail =>
                  rw [ht] at h
                  simp only [exceptBind_ok] at h
                  injection h with h'
                  subst h'
                  obtain ⟨hsub, hprops⟩ := ih tail ht
                  refine ⟨hsub.cons₂ s, ?_⟩
                  intro x hx
                  rcases List.mem_cons.mp hx with rfl | hx'
                  · exact ⟨hc1, hc2, hc3⟩
                  · exact hprops x hx'

/-- Claim C3 (counterexample): with the filter `has_results = False`
supplied, a record whose has-results value is `True` survives the post
filter, so a surviving record need not satisfy has-results equality with
the supplied value. -/
theorem filter_studies_falsy_has_results_survivor :
    hrFilters.has_results = some (Json.bool false) ∧
      pyTruthy (Json.bool false) = false ∧
      filter_studies [hrStudy] (some hrFilters) = Except.ok [hrStudy] ∧
      pyGetD hrStudy "hasResults" (Json.bool false) = Except.ok (Json.bool true) ∧
      pyTruthy (Json.bool true) = true :=
  ⟨rfl, rfl, rfl, rfl, rfl⟩

/-- Claim C3 (amended): whenever the post filter returns, its output is a
subsequence of the input preserving relative order, and every survivor
satisfies every supplied predicate as the code enforces it: a truthy
has-results request forces a truthy has-results field (a falsy request is
not enforced), a status request forces membership/equality on the
(defaulted) status field, and a study-type request forces case-insensitive
equality on the (defaulted, string) type field; a record missing a tested
field only survives if the predicate accepts the empty default. -/
theorem filter_studies_sound :
    ∀ f studies out, filter_studies studies (some f) = Except.ok out →
      List.Sublist out studies ∧
      ∀ s ∈ out,
        (∀ v, f.has_results = some v → pyTruthy v = true →
          ∃ hr, pyGetD s "hasResults" (Json.bool false) = Except.ok hr ∧ pyTruthy hr = true)
        ∧ (∀ tgt, f.overall_status = some tgt →
          ∃ cs, statusOfStudy s = Except.ok cs ∧ statusMatches cs tgt = true)
        ∧ (∀ t, f.study_type = some t →
          ∃ cu, typeUpperOfStudy s = Except.ok cu ∧ cu = pyStrUpper t) := by
  intro f studies out h
  rw [filter_studies] at h
  by_cases he : queryFiltersEmpty f = true
  · rw [if_pos he] at h
    injection h with h'
    subst h'
    simp only [queryFiltersEmpty, Bool.and_eq_true, Option.isNone_iff_eq_none] at he
    refine ⟨List.Sublist.refl _, ?_⟩
    intro s _
    refine ⟨?_, ?_, ?_⟩
    · intro v hv
      rw [he.1.2] at hv
      exact absurd hv (by simp)
    · intro tgt htgt
      rw [he.1.1.2] at htgt
      exact absurd htgt (by simp)
    · intro t ht
      rw [he.2] at ht
      exact absurd ht (by simp)
  · rw [if_neg he] at h
    obtain ⟨hsub, hprops⟩ := filterStudiesGo_sound f studies out h
    refine ⟨hsub, ?_⟩
    intro s hs
    obtain ⟨p1, p2, p3⟩ := hprops s hs
    exact ⟨checkHasResults_ok_true p1, checkOverallStatus_ok_true p2, checkStudyType_ok_true p3⟩

/-- Claim C3 (witness): the soundness theorem applied to a concrete run of
the post filter with a status predicate. -/
theorem filter_studies_sound_applied :
    filter_studies [completedStudy, terminatedStudy] (some statusFilters) =
        Except.ok [completedStudy] ∧
      List.Sublist [completedStudy] [completedStudy, terminatedStudy] ∧
      ∃ cs, statusOfStudy completedStudy = Except.ok cs ∧
        statusMatches cs (Sum.inl "COMPLETED") = true := by
  have hf : filter_studies [completedStudy, terminatedStudy] (some statusFilters) =
      Except.ok [completedStudy] := rfl
  obtain ⟨hsub, hprops⟩ := filter_studies_sound statusFilters _ _ hf
  refine ⟨hf, hsub, ?_⟩
  exact (hprops completedStudy (by simp)).2.1 (Sum.inl "COMPLETED") rfl


/-- When every remaining attempt fails transiently (exception or a
non-duplicate failure outside the non-retryable vocabulary), the retry
loop runs through the whole budget, sleeping the linearly increasing
delays, and reports a permanent failure. -/
theorem retryTraceGo_all_transient (R : Nat) (d : ℚ) (step : Nat → AttemptOutcome) :
    ∀ n a last, R - a ≤ n → a < R →
      (∀ i, a ≤ i → i < R →
        (∃ e, step i = Except.error e) ∨
        (∃ st m, step i = Except.ok (false, st, m) ∧ isValidationError m = false ∧
          m ≠ "Already exists")) →
      ∃ m, retryTraceGo R d step a last =
        ((false, none, m), R, (List.range' a (R - 1 - a)).map (fun i => d * ((i : ℚ) + 1))) := by
  intro n
  induction n with
  | zero => intro a last hle ha _; omega
  | succ n ihn =>
    intro a last hle ha hstep
    rw [retryTraceGo, dif_pos ha]
    rcases hstep a le_rfl ha with ⟨e, he⟩ | ⟨st, m0, hm, hvm, hne⟩
    · by_cases hlt : a + 1 < R
      · obtain ⟨m, hrec⟩ := ihn (a + 1) e (by omega) hlt (fun i h1 h2 => hstep i (by omega) h2)
        refine ⟨m, ?_⟩
        simp only [he, hrec]
        have hsl : a < R - 1 := by omega
        have hrange : R - 1 - a = (R - 1 - (a + 1)) + 1 := by omega
        rw [if_pos hsl, hrange, List.range'_succ]
        simp
      · have hbase : retryTraceGo R d step (a + 1) e = ((false, none, e), a + 1, []) := by
          rw [retryTraceGo, dif_neg (by omega)]
        refine ⟨e, ?_⟩
        simp only [he, hbase]
        have hsl : ¬ a < R - 1 := by omega
        have hr0 : R - 1 - a = 0 := by omega
        have haR : a + 1 = R := by omega
        rw [if_neg hsl, hr0, haR]
        simp [List.range']
    · have hb : (m0 == "Already exists") = false := beq_eq_false_iff_ne.mpr hne
      by_cases hlt : a + 1 < R
      · obtain ⟨m, hrec⟩ := ihn (a + 1) m0 (by omega) hlt (fun i h1 h2 => hstep i (by omega) h2)
        refine ⟨m, ?_⟩
        simp only [hm, hb, hvm, Bool.false_or, Bool.false_eq_true, if_false, hrec]
        have hsl : a < R - 1 := by omega
        have hrange : R - 1 - a = (R - 1 - (a + 1)) + 1 := by omega
        rw [if_pos hsl, hrange, List.range'_succ]
        simp
      · have hbase : retryTraceGo R d step (a + 1) m0 = ((false, none, m0), a + 1, []) := by
          rw [retryTraceGo, dif_neg (by omega)]
        refine ⟨m0, ?_⟩
        simp only [hm, hb, hvm, Bool.false_or, Bool.false_eq_true, if_false, hbase]
        have hsl : ¬ a < R - 1 := by omega
        have hr0 : R - 1 - a = 0 := by omega
        have haR : a + 1 = R := by omega
        rw [if_neg hsl, hr0, haR]
        simp [List.range']

/-- Claim C6: in the retry wrapper, a first-attempt failure whose reason
matches the non-retryable vocabulary (substring, case-insensitive) is
attempted exactly once, with no sleep, and reported as the failure; when
every attempt raises or fails outside the vocabulary, exactly
`retry_attempts` attempts run, with `retry_delay * attemptNumber` slept
between consecutive attempts, and only then is a permanent failure
reported. -/
theorem process_with_retry_trace_spec :
    ∀ (config : IngestionConfig) (step : Nat → AttemptOutcome),
      1 ≤ config.retry_attempts →
      ((∀ st msg, step 0 = Except.ok (false, st, msg) → isValidationError msg = true →
        process_with_retry_trace config step = ((false, none, msg), 1, []))
      ∧ ((∀ i, i < config.retry_attempts →
            (∃ e, step i = Except.error e) ∨
            (∃ st m, step i = Except.ok (false, st, m) ∧ isValidationError m = false ∧
              m ≠ "Already exists")) →
          ∃ m, process_with_retry_trace config step =
            ((false, none, m), config.retry_attempts,
              (List.range (config.retry_attempts - 1)).map
                (fun i => config.retry_delay * ((i : ℚ) + 1))))) := by
  intro config step hR
  constructor
  · intro st msg h0 hv
    have hne : (msg == "Already exists") = false := by
      by_cases hmm : msg = "Already exists"
      · subst hmm
        exact absurd hv (by decide)
      · exact beq_eq_false_iff_ne.mpr hmm
    rw [process_with_retry_trace, retryTraceGo, dif_pos (by omega)]
    simp only [h0, hne, Bool.false_or, Bool.false_eq_true, if_false, hv, if_true]
  · intro hstep
    obtain ⟨m, h⟩ := retryTraceGo_all_transient config.retry_attempts config.retry_delay step
      config.retry_attempts 0 "" (by omega) (by omega) (fun i _ h2 => hstep i h2)
    refine ⟨m, ?_⟩
    rw [process_with_retry_trace, h, List.range_eq_range']
    simp only [Nat.sub_zero]

/-- Claim C6 (witness): the theorem applied to a non-retryable first
failure (one attempt, no sleeps) and to an always-raising step (three
attempts, sleeps 1 and 2). -/
theorem process_with_retry_trace_spec_applied :
    process_with_retry_trace traceConfig validationStep =
        ((false, none, "No interventions defined"), 1, []) ∧
      (∃ m, process_with_retry_trace traceConfig transientStep =
        ((false, none, m), traceConfig.retry_attempts,
          (List.range (traceConfig.retry_attempts - 1)).map
            (fun i => traceConfig.retry_delay * ((i : ℚ) + 1)))) ∧
      (List.range (traceConfig.retry_attempts - 1)).map
          (fun i => traceConfig.retry_delay * ((i : ℚ) + 1)) = [1, 2] := by
  refine ⟨?_, ?_, ?_⟩
  · exact (process_with_retry_trace_spec traceConfig validationStep (by decide)).1 none
      "No interventions defined" rfl (by decide)
  · exact (process_with_retry_trace_spec traceConfig transientStep (by decide)).2
      (fun i _ => Or.inl ⟨"ConnectionError", rfl⟩)
  · norm_num [traceConfig, List.range_succ]

/-- Claim C7: with `continue_on_error` disabled, a record that comes back
from the retry wrapper as a permanent failure (not a success, not a
duplicate) halts the loop: the remaining records are returned unconsumed
and the statistics accumulated up to and including that failure are the
result; with it enabled, the failure is counted and the loop continues on
the remaining records; and every run finalizes its statistics by setting
the end timestamp. -/
theorem ingest_halt_and_continue_spec :
    (∀ config max_studies store processed stats rec rest r store2,
      config.continue_on_error = false →
      processed < max_studies →
      process_with_retry config store rec = (r, store2) →
      r.1 = false → (r.2.2 == "Already exists") = false →
      ingest_loop config max_studies store processed stats (rec :: rest) =
        (apply_record_stats stats r, store2, rest))
    ∧ (∀ config max_studies store processed stats rec rest r store2,
      config.continue_on_error = true →
      processed < max_studies →
      process_with_retry config store rec = (r, store2) →
      r.1 = false → (r.2.2 == "Already exists") = false →
      ingest_loop config max_studies store processed stats (rec :: rest) =
        ingest_loop config max_studies store2 (processed + 1) (apply_record_stats stats r) rest)
    ∧ (∀ config store conn records ms t0 t1,
      (ingest_studies config store conn records ms t0 t1).1.end_time = some t1) := by
  refine ⟨?_, ?_, ?_⟩
  · intro config max_studies store processed stats rec rest r store2 hco hlt hpr h1 h2
    simp only [ingest_loop]
    rw [if_neg (by omega)]
    simp only [hpr, h1, Bool.false_eq_true, if_false, h2, hco]
  · intro config max_studies store processed stats rec rest r store2 hco hlt hpr h1 h2
    simp only [ingest_loop]
    rw [if_neg (by omega)]
    simp only [hpr, h1, Bool.false_eq_true, if_false, h2, hco, if_true]
  · intro config store conn records ms t0 t1
    cases conn with
    | false => rfl
    | true =>
      unfold ingest_studies
      rw [if_neg (by simp)]

/-- Claim C7 (witness): a no-results record under `continue_on_error =
false` halts the two-record run, leaving the second record unconsumed,
with the failure counted; and a run always gets its end timestamp. -/
theorem ingest_halt_and_continue_spec_applied :
    ingest_loop haltConfig 10 [] 0 {} [dupIneligibleRecord, eligibleRecord] =
        (apply_record_stats {} (false, none, "No results posted"), [], [eligibleRecord]) ∧
      (ingest_studies defaultIngestionConfig [] true [] none 0 5).1.end_time = some 5 := by
  constructor
  · exact ingest_halt_and_continue_spec.1 haltConfig 10 [] 0 {} dupIneligibleRecord
      [eligibleRecord] (false, none, "No results posted") [] rfl (by norm_num) rfl rfl rfl
  · exact ingest_halt_and_continue_spec.2.2 defaultIngestionConfig [] true [] none 0 5

/-- Claim C9: throughout every run, after each handled record the
statistics keep `total_fetched` equal to the sum of the success, failure
and duplicate buckets, with the results counter bounded by the success
counter: the per-record update preserves the invariant, the record loop
preserves it, and a whole run from fresh statistics satisfies it. -/
theorem ingestion_stats_invariant :
    (∀ stats r, stats_invariant stats → stats_invariant (apply_record_stats stats r))
    ∧ (∀ config max_studies store processed stats records, stats_invariant stats →
        stats_invariant (ingest_loop config max_studies store processed stats records).1)
    ∧ (∀ config store conn records ms t0 t1,
        stats_invariant (ingest_studies config store conn records ms t0 t1).1) := by
  have hstep : ∀ stats r, stats_invariant stats → stats_invariant (apply_record_stats stats r) := by
    intro stats r h
    obtain ⟨h1, h2⟩ := h
    rcases r with ⟨success, study, msg⟩
    cases success with
    | false =>
      by_cases hd : (msg == "Already exists") = true <;>
        · simp [apply_record_stats, hd, stats_invariant]
          omega
    | true =>
      by_cases hs : (match study with
          | some s => pyTruthy s.has_results
          | none => false) = true <;>
        · simp [apply_record_stats, hs, stats_invariant]
          omega
  have hloop : ∀ records config max_studies store processed stats, stats_invariant stats →
      stats_invariant (ingest_loop config max_studies store processed stats records).1 := by
    intro records
    induction records with
    | nil =>
      intro config max_studies store processed stats h
      simpa [ingest_loop] using h
    | cons rec rest ih =>
      intro config max_studies store processed stats h
      simp only [ingest_loop]
      by_cases hmax : processed ≥ max_studies
      · simpa [if_pos hmax] using h
      · rw [if_neg hmax]
        rcases hpr : process_with_retry config store rec with ⟨r, store2⟩
        simp only [hpr]
        have h2 := hstep stats r h
        by_cases hr1 : r.1 = true
        · simp only [hr1, if_true]
          exact ih config max_studies store2 (processed + 1) _ h2
        · have hr1f : r.1 = false := by revert hr1; cases r.1 <;> simp
          simp only [hr1f, Bool.false_eq_true, if_false]
          by_cases hd : (r.2.2 == "Already exists") = true
          · simp only [hd, if_true]
            exact ih config max_studies store2 (processed + 1) _ h2
          · have hdf : (r.2.2 == "Already exists") = false := by
              revert hd; cases r.2.2 == "Already exists" <;> simp
            simp only [hdf, Bool.false_eq_true, if_false]
            by_cases hco : config.continue_on_error = true
            · simp only [hco, if_true]
              exact ih config max_studies store2 (processed + 1) _ h2
            · have hcof : config.continue_on_error = false := by
                revert hco; cases config.continue_on_error <;> simp
              simp only [hcof, Bool.false_eq_true, if_false]
              exact h2
  refine ⟨hstep, fun config max_studies store processed stats records h =>
    hloop records config max_studies store processed stats h, ?_⟩
  intro config store conn records ms t0 t1
  cases conn with
  | false => exact ⟨rfl, Nat.le_refl 0⟩
  | true =>
    unfold ingest_studies
    rw [if_neg (by simp)]
    generalize (match ms with
      | some n => if n = 0 then config.max_studies_per_run else n
      | none => config.max_studies_per_run) = M
    obtain ⟨⟨s, st, rem⟩, hl⟩ :
        ∃ x, ingest_loop config M store 0 { start_time := some t0 } records = x := ⟨_, rfl⟩
    have hrun := hloop records config M store 0 { start_time := some t0 } ⟨rfl, Nat.le_refl 0⟩
    rw [hl] at hrun
    simp only [hl]
    exact hrun

/-- Claim C9 (witness): the loop-level invariant applied to a concrete
one-record run starting from fresh statistics. -/
theorem ingestion_stats_invariant_applied :
    stats_invariant ({} : IngestionStats) ∧
      stats_invariant
        (ingest_loop defaultIngestionConfig 10 [] 0 {} [dupIneligibleRecord]).1 := by
  have h0 : stats_invariant ({} : IngestionStats) := ⟨rfl, Nat.le_refl 0⟩
  exact ⟨h0,
    ingestion_stats_invariant.2.1 defaultIngestionConfig 10 [] 0 {} [dupIneligibleRecord] h0⟩
